import Mathlib

/-!
Verification of the otx2crits pulse-ingestion pipeline (src/otx2crits.py).

The pipeline pulls "pulses" from the AlienVault OTX feed and writes them into
CRITs as Events with attached Tickets, Indicators and Relationships.  The
shallow embedding below models:
  * the pulse data model and the indicator-type mapping table
    (`get_indicator_mapping`, lines 193-218);
  * the per-pulse write sequence of `OTX2CRITs.execute` (lines 60-154) as a
    pure fold producing a repository state and a trace of repository calls,
    with the external CRITs client abstracted as an environment of response
    functions (`CritsEnv`);
  * the duplicate check `is_pulse_in_crits` (lines 287-296), with the
    repository's ticket store modelled as the state `RepoState`;
  * the indicator-result filter `add_crits_indicator` (lines 309-319);
  * the paginated pulse generator `get_pulse_generator` (lines 235-273),
    with HTTP fetching abstracted as a function from URL to optional page;
  * the PATCH request construction of `add_ticket_to_crits_event`
    (lines 322-353) and `build_crits_relationship` (lines 356-387).
-/

/-- An indicator record inside a pulse: the feed type tag (`i['type']`) and
the observable value (`i['indicator']`). -/
structure IndicatorRecord where
  type : String
  indicator : String
deriving DecidableEq

/-- A pulse as consumed by `execute`: the fields of the feed JSON object that
the code reads (`id`, `name`, `description`, `created`, `references`, `tags`,
`indicators`). -/
structure Pulse where
  id : String
  name : String
  description : String
  created : String
  references : List String
  tags : List String
  indicators : List IndicatorRecord
deriving DecidableEq

/-- Modelled from the spec: the repository indicator-type identifiers that the
source imports from the external CRITs `vocabulary.indicators` module (not part
of this repository).  Only which table entries share a constant matters to the
claims, so the constants are modelled as an enumeration. -/
inductive CritsType where
  | SHA256
  | SHA1
  | URI
  | DOMAIN
  | IPV4_ADDRESS
  | IPV6_ADDRESS
  | EMAIL_ADDRESS
  | FILE_PATH
  | MD5
  | IMPHASH
  | IPV4_SUBNET
  | MUTEX
deriving DecidableEq

/-- The mapping table of `get_indicator_mapping` (lines 193-218), as the
association list of the Python dict literal.  A value `none` is the explicit
`None` entry (feed type with no CRITs equivalent). -/
def get_indicator_mapping : List (String × Option CritsType) :=
  [("FileHash-SHA256", some CritsType.SHA256),
   ("FileHash-SHA1", some CritsType.SHA1),
   ("URI", some CritsType.URI),
   ("URL", some CritsType.URI),
   ("hostname", some CritsType.DOMAIN),
   ("domain", some CritsType.DOMAIN),
   ("IPv4", some CritsType.IPV4_ADDRESS),
   ("IPv6", some CritsType.IPV6_ADDRESS),
   ("email", some CritsType.EMAIL_ADDRESS),
   ("Email", some CritsType.EMAIL_ADDRESS),
   ("filepath", some CritsType.FILE_PATH),
   ("Filepath", some CritsType.FILE_PATH),
   ("FilePath", some CritsType.FILE_PATH),
   ("FileHash-MD5", some CritsType.MD5),
   ("Imphash", some CritsType.IMPHASH),
   ("PEhash", none),
   ("CIDR", some CritsType.IPV4_SUBNET),
   ("mutex", some CritsType.MUTEX),
   ("Mutex", some CritsType.MUTEX),
   ("CVE", none),
   ("Yara", none)]

/-- Dictionary lookup: `some v` when the key is present (`i['type'] in mapping`
followed by `mapping[i['type']]`), `none` when absent. -/
def mappingLookup (m : List (String × Option CritsType)) (k : String) :
    Option (Option CritsType) :=
  match m with
  | [] => none
  | kv :: rest => if kv.1 = k then some kv.2 else mappingLookup rest k

/-- The structured result returned by the CRITs client for an indicator
creation: `{return_code, id, message}`. -/
structure IndicatorResult where
  return_code : Int
  id : String
  message : String
deriving DecidableEq

/-- `add_crits_indicator` (lines 309-319), with the raw reply of
`self.crits.add_indicator` abstracted as the argument: the reply is passed
through exactly when it is truthy and its `return_code` equals 0; otherwise
the function returns `False` (here `none`). -/
def add_crits_indicator (result : Option IndicatorResult) : Option IndicatorResult :=
  match result with
  | none => none
  | some r => if r.return_code = 0 then some r else none

/-- The modelled repository state: the multiset of `ticket_number` values of
the tickets attached to Events, one entry per successfully attached ticket
(each ticket belongs to exactly one Event). -/
structure RepoState where
  tickets : List String
deriving DecidableEq

/-- The repository query `self.crits.event_count(params={'c-tickets.ticket_number':
pulse_id})` (lines 292-293), against the modelled state: the number of Events
holding a ticket with the given ticket number. -/
def event_count_by_ticket (st : RepoState) (pulse_id : String) : Nat :=
  st.tickets.count pulse_id

/-- `is_pulse_in_crits` (lines 287-296): true exactly when the event count for
the pulse id is positive. -/
def is_pulse_in_crits (st : RepoState) (pulse_id : String) : Bool :=
  if event_count_by_ticket st pulse_id > 0 then true else false

/-- The responses of the external CRITs client, abstracted as functions:
`add_event` gives the event id when the returned object contains `'id'`
(lines 101-108), `ticket_ok` is the outcome of `add_ticket_to_crits_event`
(lines 118-121), and `add_indicator` is the raw reply of
`self.crits.add_indicator` (line 311). -/
structure CritsEnv where
  add_event : Pulse → Option String
  ticket_ok : String → String → Bool
  add_indicator : String → CritsType → Option IndicatorResult

/-- One repository call issued by `execute`, in issue order. -/
inductive Call where
  | dup_check (pulse_id : String) (answer : Bool)
  | add_event (title : String) (description : String) (reference : String)
  | add_ticket (event_id : String) (pulse_id : String)
  | add_ind (value : String) (t : CritsType)
  | forge_rel (event_id : String) (indicator_id : String)
deriving DecidableEq

def is_event_call : Call → Bool
  | Call.add_event _ _ _ => true
  | _ => false

def is_ticket_call : Call → Bool
  | Call.add_ticket _ _ => true
  | _ => false

def is_ind_call : Call → Bool
  | Call.add_ind _ _ => true
  | _ => false

def is_rel_call : Call → Bool
  | Call.forge_rel _ _ => true
  | _ => false

/-- The indicator id named by a relationship call, if any. -/
def rel_target : Call → Option String
  | Call.forge_rel _ iid => some iid
  | _ => none

/-- Lines 90-91 of `execute`: CRITs requires a description, so the empty
description is replaced by the fixed placeholder. -/
def pulse_description (p : Pulse) : String :=
  if p.description = "" then "No description given." else p.description

/-- Lines 79-84 of `execute`: `reference` is initialised to the empty string
and then tested with `if not reference:`, so the placeholder branch is always
taken; the `else` branch reading `pulse['references'][0]` (modelled with
`headD`) is unreachable. -/
def pulse_reference (p : Pulse) : String :=
  let reference : String := ""
  if reference = "" then "No reference documented"
  else p.references.headD ""

/-- The indicator loop of `execute` (lines 126-146): for each record, look the
feed type up in the mapping table; an absent type is logged and skipped, an
explicit `None` mapping is skipped silently, and otherwise one indicator
creation call is issued.  The second component is `relationship_map`: the ids
of the successfully created indicators, in creation order. -/
def indicator_loop (env : CritsEnv) : List IndicatorRecord → List Call × List String
  | [] => ([], [])
  | i :: rest =>
    match mappingLookup get_indicator_mapping i.type with
    | none => indicator_loop env rest
    | some none => indicator_loop env rest
    | some (some t) =>
      match add_crits_indicator (env.add_indicator i.indicator t) with
      | some r =>
        (Call.add_ind i.indicator t :: (indicator_loop env rest).1,
         r.id :: (indicator_loop env rest).2)
      | none =>
        (Call.add_ind i.indicator t :: (indicator_loop env rest).1,
         (indicator_loop env rest).2)

/-- The body of `execute` for one pulse (lines 60-154): duplicate check; on a
miss, event creation (abandoning the pulse when no id is returned), ticket
attachment (non-fatal; on success the ticket number is recorded in the
repository state), the indicator loop, and one relationship call per entry of
`relationship_map`. -/
def process_pulse (env : CritsEnv) (st : RepoState) (p : Pulse) :
    RepoState × List Call :=
  if is_pulse_in_crits st p.id then
    (st, [Call.dup_check p.id true])
  else
    match env.add_event p with
    | none =>
      (st, [Call.dup_check p.id false,
            Call.add_event p.name (pulse_description p) (pulse_reference p)])
    | some event_id =>
      (if env.ticket_ok event_id p.id then
         { tickets := st.tickets ++ [p.id] }
       else st,
       Call.dup_check p.id false
         :: Call.add_event p.name (pulse_description p) (pulse_reference p)
         :: Call.add_ticket event_id p.id
         :: ((indicator_loop env p.indicators).1
             ++ (indicator_loop env p.indicators).2.map
                  (fun iid => Call.forge_rel event_id iid)))

/-- The `for pulse in self.get_pulse_generator(...)` loop of `execute`:
process the pulses in arrival order, threading the repository state and
collecting one call trace per pulse. -/
def execute_pulses (env : CritsEnv) (st : RepoState) :
    List Pulse → RepoState × List (List Call)
  | [] => (st, [])
  | p :: rest =>
    ((execute_pulses env (process_pulse env st p).1 rest).1,
     (process_pulse env st p).2
       :: (execute_pulses env (process_pulse env st p).1 rest).2)

/-- Number of event-creation calls in a run's per-pulse traces. -/
def count_event_calls (trs : List (List Call)) : Nat :=
  (trs.map (fun t => t.countP (fun c => is_event_call c))).sum

/-- A record whose feed type is present in the table with a concrete CRITs
type (the records for which `execute` issues an indicator-creation call). -/
def is_supported (i : IndicatorRecord) : Bool :=
  match mappingLookup get_indicator_mapping i.type with
  | some (some _) => true
  | _ => false

/-- The id that a record contributes to `relationship_map`: present exactly
when the record is supported and its creation call returned a truthy reply
with `return_code` 0. -/
def successful_id (env : CritsEnv) (i : IndicatorRecord) : Option String :=
  match mappingLookup get_indicator_mapping i.type with
  | some (some t) => (add_crits_indicator (env.add_indicator i.indicator t)).map (fun r => r.id)
  | _ => none

/-- One page of the OTX `pulses/subscribed` response: the optional `results`
array (`'results' in all_pulses`) and the optional `next` field, itself null
or a URL string (`'next' in all_pulses`, then truthiness of the value). -/
structure OtxPage where
  results : Option (List Pulse)
  next : Option (Option String)
deriving DecidableEq

/-- The continuation test of lines 269-273: the next page is fetched exactly
when the `next` field is present and truthy (a non-empty string). -/
def next_truthy : Option (Option String) → Option String
  | some (some s) => if s = "" then none else some s
  | _ => none

/-- The first request URL built at lines 246-256: `{otx_url}/pulses/subscribed`
with `modified_since` (when given), `limit=10` and `page=1` joined by `&`. -/
def first_url (otx_url : String) (modified_since : Option String) : String :=
  let args := (match modified_since with
      | some ts => ["modified_since=" ++ ts]
      | none => ([] : List String)) ++ ["limit=10", "page=1"]
  otx_url ++ "/pulses/subscribed?" ++ String.intercalate "&" args

/-- The `while response_data:` loop of `get_pulse_generator` (lines 262-273),
with `send_otx_get` abstracted as `fetch : String → Option OtxPage` (`none` is
a non-200 response, line 227).  Returns the yielded pulses and the URLs of the
follow-up fetches.  The fuel bounds recursion depth; every claim is stated
with fuel to spare. -/
def pulse_loop (fetch : String → Option OtxPage) :
    Nat → Option OtxPage → List Pulse × List String
  | _, none => ([], [])
  | 0, some _ => ([], [])
  | fuel + 1, some page =>
    match next_truthy page.next with
    | none => (page.results.getD [], [])
    | some nxt =>
      ((page.results.getD []) ++ (pulse_loop fetch fuel (fetch nxt)).1,
       nxt :: (pulse_loop fetch fuel (fetch nxt)).2)

/-- `get_pulse_generator` (lines 235-273): build the first URL, fetch it, and
run the page loop.  The second component lists every URL fetched, the first
URL included. -/
def get_pulse_generator (fetch : String → Option OtxPage) (otx_url : String)
    (modified_since : Option String) (fuel : Nat) : List Pulse × List String :=
  ((pulse_loop fetch fuel (fetch (first_url otx_url modified_since))).1,
   first_url otx_url modified_since
     :: (pulse_loop fetch fuel (fetch (first_url otx_url modified_since))).2)

/-- A pulse with a numeric id, used for concrete pagination scenarios. -/
def mkPulse (n : Nat) : Pulse :=
  { id := toString n, name := toString n, description := "", created := "",
    references := [], tags := [], indicators := [] }

/-- A three-page feed of 10, 10 and 4 pulses whose first two pages carry a
populated `next` link and whose third page has `next` null. -/
def otxFetch3 : String → Option OtxPage := fun u =>
  if u = first_url "https://otx" none then
    some { results := some ((List.range 10).map mkPulse),
           next := some (some "https://otx/p2") }
  else if u = "https://otx/p2" then
    some { results := some ((List.range 10).map (fun n => mkPulse (n + 10))),
           next := some (some "https://otx/p3") }
  else if u = "https://otx/p3" then
    some { results := some ((List.range 4).map (fun n => mkPulse (n + 20))),
           next := some none }
  else none

/-- A feed whose first page answers 200 with `next` present and equal to the
empty string, while a page with further pulses would be served for the empty
URL. -/
def otxFetchES : String → Option OtxPage := fun u =>
  if u = first_url "https://otx" none then
    some { results := some [mkPulse 0], next := some (some "") }
  else if u = "" then
    some { results := some [mkPulse 1], next := some none }
  else none

/-- The PATCH request issued against the CRITs events endpoint, reduced to the
fields the claims are about. -/
structure PatchRequest where
  url : String
  action : String
  body_key : String
  verify : Bool
deriving DecidableEq

/-- The request constructed by `add_ticket_to_crits_event` (lines 322-353):
URL `{crits_url}/api/v1/events/{event_id}/`, action `ticket_add` with the
pulse id as ticket number, and `verify=False` hard-coded at line 344
regardless of the `verify` parameter. -/
def add_ticket_to_crits_event (crits_url : String) (event_id : String)
    (pulse_id : String) (verify : Bool) : PatchRequest :=
  { url := crits_url ++ "/api/v1/events/" ++ event_id ++ "/",
    action := "ticket_add",
    body_key := pulse_id,
    verify := false }

/-- The request constructed by `build_crits_relationship` (lines 356-387):
same endpoint, action `forge_relationship` with the indicator id as
`right_id`, and `verify=False` hard-coded at line 378 regardless of the
`verify` parameter. -/
def build_crits_relationship (crits_url : String) (event_id : String)
    (indicator_id : String) (verify : Bool) : PatchRequest :=
  { url := crits_url ++ "/api/v1/events/" ++ event_id ++ "/",
    action := "forge_relationship",
    body_key := indicator_id,
    verify := false }

/-! ## Helper lemmas -/

lemma is_pulse_in_crits_true_iff (st : RepoState) (x : String) :
    is_pulse_in_crits st x = true ↔ x ∈ st.tickets := by
  unfold is_pulse_in_crits event_count_by_ticket
  by_cases h : 0 < st.tickets.count x
  · simp only [gt_iff_lt, h, if_true, true_iff]
    exact List.count_pos_iff.mp h
  · simp only [gt_iff_lt, h, if_false]
    constructor
    · intro hfalse
      exact absurd hfalse (by simp)
    · intro hmem
      exact absurd (List.count_pos_iff.mpr hmem) h

lemma process_pulse_skip (env : CritsEnv) (st : RepoState) (p : Pulse)
    (h : is_pulse_in_crits st p.id = true) :
    process_pulse env st p = (st, [Call.dup_check p.id true]) := by
  simp [process_pulse, h]

lemma process_pulse_fail (env : CritsEnv) (st : RepoState) (p : Pulse)
    (hdup : is_pulse_in_crits st p.id = false) (hfail : env.add_event p = none) :
    process_pulse env st p
      = (st, [Call.dup_check p.id false,
              Call.add_event p.name (pulse_description p) (pulse_reference p)]) := by
  simp [process_pulse, hdup, hfail]

lemma process_pulse_success_trace (env : CritsEnv) (st : RepoState) (p : Pulse)
    (eid : String) (hdup : is_pulse_in_crits st p.id = false)
    (hev : env.add_event p = some eid) :
    (process_pulse env st p).2
      = Call.dup_check p.id false
        :: Call.add_event p.name (pulse_description p) (pulse_reference p)
        :: Call.add_ticket eid p.id
        :: ((indicator_loop env p.indicators).1
            ++ (indicator_loop env p.indicators).2.map
                 (fun iid => Call.forge_rel eid iid)) := by
  simp [process_pulse, hdup, hev]

lemma indicator_loop_calls_count (env : CritsEnv) (l : List IndicatorRecord) :
    (indicator_loop env l).1.countP (fun c => is_ind_call c)
      = l.countP (fun i => is_supported i) := by
  induction l with
  | nil => rfl
  | cons i rest ih =>
    unfold indicator_loop
    cases hm : mappingLookup get_indicator_mapping i.type with
    | none =>
      have hs : is_supported i = false := by unfold is_supported; rw [hm]
      simp [List.countP_cons, hs, ih]
    | some o =>
      cases o with
      | none =>
        have hs : is_supported i = false := by unfold is_supported; rw [hm]
        simp [List.countP_cons, hs, ih]
      | some t =>
        have hs : is_supported i = true := by unfold is_supported; rw [hm]
        have hic : is_ind_call (Call.add_ind i.indicator t) = true := rfl
        cases hr : add_crits_indicator (env.add_indicator i.indicator t) with
        | none => simp [hr, List.countP_cons, hs, hic, ih]
        | some r => simp [hr, List.countP_cons, hs, hic, ih]

lemma indicator_loop_ids (env : CritsEnv) (l : List IndicatorRecord) :
    (indicator_loop env l).2 = l.filterMap (fun i => successful_id env i) := by
  induction l with
  | nil => rfl
  | cons i rest ih =>
    unfold indicator_loop
    cases hm : mappingLookup get_indicator_mapping i.type with
    | none =>
      have hs : successful_id env i = none := by unfold successful_id; rw [hm]
      simp [List.filterMap_cons, hs, ih]
    | some o =>
      cases o with
      | none =>
        have hs : successful_id env i = none := by unfold successful_id; rw [hm]
        simp [List.filterMap_cons, hs, ih]
      | some t =>
        cases hr : add_crits_indicator (env.add_indicator i.indicator t) with
        | none =>
          have hs : successful_id env i = none := by
            simp [successful_id, hm, hr]
          simp [hr, List.filterMap_cons, hs, ih]
        | some r =>
          have hs : successful_id env i = some r.id := by
            simp [successful_id, hm, hr]
          simp [hr, List.filterMap_cons, hs, ih]

lemma indicator_loop_calls_no_rel (env : CritsEnv) (l : List IndicatorRecord) :
    (indicator_loop env l).1.filterMap rel_target = [] := by
  induction l with
  | nil => rfl
  | cons i rest ih =>
    unfold indicator_loop
    cases hm : mappingLookup get_indicator_mapping i.type with
    | none => exact ih
    | some o =>
      cases o with
      | none => exact ih
      | some t =>
        have hrc : rel_target (Call.add_ind i.indicator t) = none := rfl
        cases hr : add_crits_indicator (env.add_indicator i.indicator t) with
        | none => simp [hr, List.filterMap_cons, hrc, ih]
        | some r => simp [hr, List.filterMap_cons, hrc, ih]

lemma filterMap_rel_target_map (eid : String) (ids : List String) :
    (ids.map (fun iid => Call.forge_rel eid iid)).filterMap rel_target = ids := by
  induction ids with
  | nil => rfl
  | cons x xs ih => simp [rel_target, ih]

lemma countP_ind_map_rel (eid : String) (ids : List String) :
    (ids.map (fun iid => Call.forge_rel eid iid)).countP (fun c => is_ind_call c) = 0 := by
  induction ids with
  | nil => rfl
  | cons x xs ih => simp [List.countP_cons, is_ind_call, ih]

lemma countP_supported_add_not (l : List IndicatorRecord) :
    l.countP (fun i => is_supported i) + l.countP (fun i => !(is_supported i))
      = l.length := by
  induction l with
  | nil => rfl
  | cons i rest ih =>
    by_cases h : is_supported i = true
    · simp [List.countP_cons, h]
      omega
    · simp only [Bool.not_eq_true] at h
      simp [List.countP_cons, h]
      omega

lemma process_pulse_tickets_mono (env : CritsEnv) (st : RepoState) (p : Pulse)
    (x : String) (hx : x ∈ st.tickets) :
    x ∈ (process_pulse env st p).1.tickets := by
  unfold process_pulse
  cases hb : is_pulse_in_crits st p.id with
  | true => simpa using hx
  | false =>
    cases hev : env.add_event p with
    | none => simpa using hx
    | some eid =>
      cases ht : env.ticket_ok eid p.id with
      | true => simp [ht, List.mem_append, hx]
      | false => simp [ht, hx]

lemma process_pulse_ticket_added (env : CritsEnv) (st : RepoState) (p : Pulse)
    (H : ∃ eid, env.add_event p = some eid ∧ env.ticket_ok eid p.id = true) :
    p.id ∈ (process_pulse env st p).1.tickets := by
  cases hb : is_pulse_in_crits st p.id with
  | true =>
    rw [process_pulse_skip env st p hb]
    exact (is_pulse_in_crits_true_iff st p.id).mp hb
  | false =>
    obtain ⟨eid, hev, ht⟩ := H
    unfold process_pulse
    simp [hb, hev, ht, List.mem_append]

lemma execute_pulses_mono (env : CritsEnv) (ps : List Pulse) :
    ∀ (st : RepoState) (x : String), x ∈ st.tickets →
      x ∈ (execute_pulses env st ps).1.tickets := by
  induction ps with
  | nil => intro st x hx; simpa [execute_pulses] using hx
  | cons p rest ih =>
    intro st x hx
    simp only [execute_pulses]
    exact ih _ x (process_pulse_tickets_mono env st p x hx)

lemma execute_pulses_all_ticketed (env : CritsEnv) (ps : List Pulse) :
    ∀ st : RepoState,
      (∀ p ∈ ps, ∃ eid, env.add_event p = some eid ∧ env.ticket_ok eid p.id = true) →
      ∀ p ∈ ps, p.id ∈ (execute_pulses env st ps).1.tickets := by
  induction ps with
  | nil => intro st _ p hp; cases hp
  | cons q rest ih =>
    intro st H p hp
    simp only [execute_pulses]
    rcases List.mem_cons.mp hp with rfl | hp'
    · exact execute_pulses_mono env rest _ p.id
        (process_pulse_ticket_added env st p (H p (List.mem_cons_self _ _)))
    · exact ih _ (fun r hr => H r (List.mem_cons_of_mem _ hr)) p hp'

lemma execute_pulses_all_dup (env : CritsEnv) (ps : List Pulse) :
    ∀ st : RepoState, (∀ p ∈ ps, p.id ∈ st.tickets) →
      execute_pulses env st ps
        = (st, ps.map fun p => [Call.dup_check p.id true]) := by
  induction ps with
  | nil => intro st _; rfl
  | cons q rest ih =>
    intro st H
    have hq : is_pulse_in_crits st q.id = true :=
      (is_pulse_in_crits_true_iff st q.id).mpr (H q (List.mem_cons_self _ _))
    have hskip := process_pulse_skip env st q hq
    simp only [execute_pulses, hskip]
    rw [ih st (fun p hp => H p (List.mem_cons_of_mem _ hp))]
    simp

lemma count_event_calls_dup_zero (ps : List Pulse) :
    count_event_calls (ps.map fun p => [Call.dup_check p.id true]) = 0 := by
  induction ps with
  | nil => rfl
  | cons p rest ih =>
    have h1 : List.countP (fun c => is_event_call c) [Call.dup_check p.id true] = 0 := rfl
    simp only [count_event_calls, List.map_cons, List.sum_cons] at ih ⊢
    rw [h1, ih]

/-! ## Claim theorems -/

/-- C1: the claim says the Event's reference is the first element of the
pulse's references list when that list is non-empty.  The code (lines 79-84)
initialises `reference` to the empty string before the emptiness test, so the
created Event's reference is always the placeholder `No reference documented`,
even for a pulse whose references list is non-empty; the description
placeholder part of the claim does hold.  This evaluates the embedded code at
such a pulse. -/
theorem c1_reference_always_placeholder :
    (process_pulse ⟨fun _ => some "e1", fun _ _ => true, fun _ _ => none⟩ ⟨[]⟩
        ⟨"p1", "T", "d", "c", ["http://example.com/report"], [], []⟩).2
      = [Call.dup_check "p1" false,
         Call.add_event "T" "d" "No reference documented",
         Call.add_ticket "e1" "p1"] ∧
    (["http://example.com/report"] : List String) ≠ [] ∧
    "No reference documented" ≠ "http://example.com/report" ∧
    pulse_reference ⟨"p1", "T", "d", "c", ["http://example.com/report"], [], []⟩
      = "No reference documented" ∧
    pulse_description ⟨"p1", "T", "", "c", [], [], []⟩ = "No description given." := by
  refine ⟨rfl, by decide, by decide, rfl, rfl⟩

/-- C2: running the pipeline twice over the same pulse list, when every pulse
of the first run had its event created and its ticket attached successfully,
makes the second run (under any repository behaviour) skip every pulse as a
duplicate: the state is unchanged and no event-creation call is issued. -/
theorem execute_twice_skips_all (env1 env2 : CritsEnv) (st0 : RepoState)
    (ps : List Pulse)
    (H : ∀ p ∈ ps, ∃ eid, env1.add_event p = some eid ∧ env1.ticket_ok eid p.id = true) :
    (execute_pulses env2 (execute_pulses env1 st0 ps).1 ps).2
      = ps.map (fun p => [Call.dup_check p.id true]) ∧
    count_event_calls (execute_pulses env2 (execute_pulses env1 st0 ps).1 ps).2 = 0 ∧
    (execute_pulses env2 (execute_pulses env1 st0 ps).1 ps).1
      = (execute_pulses env1 st0 ps).1 := by
  have h1 : ∀ p ∈ ps, p.id ∈ (execute_pulses env1 st0 ps).1.tickets :=
    execute_pulses_all_ticketed env1 ps st0 H
  have h2 := execute_pulses_all_dup env2 ps (execute_pulses env1 st0 ps).1 h1
  refine ⟨?_, ?_, ?_⟩
  · rw [h2]
  · rw [h2]
    exact count_event_calls_dup_zero ps
  · rw [h2]

theorem execute_twice_skips_all_witness :
    (execute_pulses ⟨fun _ => some "e2", fun _ _ => true, fun _ _ => none⟩
        (execute_pulses ⟨fun _ => some "e1", fun _ _ => true, fun _ _ => none⟩ ⟨[]⟩
          [⟨"p1", "T", "x", "c", [], [], []⟩]).1
        [⟨"p1", "T", "x", "c", [], [], []⟩]).2
      = ([⟨"p1", "T", "x", "c", [], [], []⟩] : List Pulse).map
          (fun p => [Call.dup_check p.id true]) :=
  (execute_twice_skips_all ⟨fun _ => some "e1", fun _ _ => true, fun _ _ => none⟩
    ⟨fun _ => some "e2", fun _ _ => true, fun _ _ => none⟩ ⟨[]⟩
    [⟨"p1", "T", "x", "c", [], [], []⟩]
    (by intro p hp; exact ⟨"e1", rfl, rfl⟩)).1

/-- C3: a pulse whose event creation returns no identifier produces only the
duplicate-check and event-creation calls (no ticket, indicator or relationship
call), leaves the repository state unchanged, and the remaining pulses are
processed exactly as they would have been. -/
theorem event_failure_abandons_pulse (env : CritsEnv) (st : RepoState)
    (p : Pulse) (rest : List Pulse)
    (hdup : is_pulse_in_crits st p.id = false)
    (hfail : env.add_event p = none) :
    (∀ c ∈ (process_pulse env st p).2,
        is_ticket_call c = false ∧ is_ind_call c = false ∧ is_rel_call c = false) ∧
    (execute_pulses env st (p :: rest)).2
      = (process_pulse env st p).2 :: (execute_pulses env st rest).2 ∧
    (execute_pulses env st (p :: rest)).1 = (execute_pulses env st rest).1 := by
  have hproc := process_pulse_fail env st p hdup hfail
  refine ⟨?_, ?_, ?_⟩
  · rw [hproc]
    intro c hc
    simp only [List.mem_cons, List.mem_singleton] at hc
    rcases hc with rfl | hc
    · exact ⟨rfl, rfl, rfl⟩
    · rcases hc with rfl | hc
      · exact ⟨rfl, rfl, rfl⟩
      · cases hc
  · simp only [execute_pulses, hproc]
  · simp only [execute_pulses, hproc]

theorem event_failure_abandons_pulse_witness :
    (execute_pulses ⟨fun _ => none, fun _ _ => true, fun _ _ => none⟩ ⟨[]⟩
        (⟨"p1", "T", "x", "c", [], [], []⟩ :: [⟨"p2", "U", "y", "c", [], [], []⟩])).2
      = (process_pulse ⟨fun _ => none, fun _ _ => true, fun _ _ => none⟩ ⟨[]⟩
          ⟨"p1", "T", "x", "c", [], [], []⟩).2
        :: (execute_pulses ⟨fun _ => none, fun _ _ => true, fun _ _ => none⟩ ⟨[]⟩
             [⟨"p2", "U", "y", "c", [], [], []⟩]).2 :=
  (event_failure_abandons_pulse ⟨fun _ => none, fun _ _ => true, fun _ _ => none⟩
    ⟨[]⟩ ⟨"p1", "T", "x", "c", [], [], []⟩ [⟨"p2", "U", "y", "c", [], [], []⟩]
    (by decide) rfl).2.1

lemma process_pulse_ind_count (env : CritsEnv) (st : RepoState) (p : Pulse)
    (eid : String) (hdup : is_pulse_in_crits st p.id = false)
    (hev : env.add_event p = some eid) :
    (process_pulse env st p).2.countP (fun c => is_ind_call c)
      = p.indicators.countP (fun i => is_supported i) := by
  rw [process_pulse_success_trace env st p eid hdup hev]
  have h1 : is_ind_call (Call.dup_check p.id false) = false := rfl
  have h2 : is_ind_call
      (Call.add_event p.name (pulse_description p) (pulse_reference p)) = false := rfl
  have h3 : is_ind_call (Call.add_ticket eid p.id) = false := rfl
  simp only [List.countP_cons, List.countP_append, h1, h2, h3]
  rw [indicator_loop_calls_count, countP_ind_map_rel]
  simp

lemma process_pulse_rel_map (env : CritsEnv) (st : RepoState) (p : Pulse)
    (eid : String) (hdup : is_pulse_in_crits st p.id = false)
    (hev : env.add_event p = some eid) :
    (process_pulse env st p).2.filterMap rel_target
      = p.indicators.filterMap (fun i => successful_id env i) := by
  rw [process_pulse_success_trace env st p eid hdup hev]
  have h1 : rel_target (Call.dup_check p.id false) = none := rfl
  have h2 : rel_target
      (Call.add_event p.name (pulse_description p) (pulse_reference p)) = none := rfl
  have h3 : rel_target (Call.add_ticket eid p.id) = none := rfl
  simp only [List.filterMap_cons, List.filterMap_append, h1, h2, h3]
  rw [indicator_loop_calls_no_rel, filterMap_rel_target_map, indicator_loop_ids]
  simp

/-- C4: for a non-duplicate pulse whose event creation succeeded, the number
of indicator-creation calls equals the number of records whose feed type maps
to a concrete CRITs type (the supported records, N−M of N records when M are
absent from the table or explicitly unmapped); one record's failure leaves the
remaining calls in place, since the call count never drops below the supported
count; and the relationship map — the targets of the relationship calls —
consists exactly of the identifiers of the successfully created indicators, in
creation order. -/
theorem indicator_calls_and_relationship_map (env : CritsEnv) (st : RepoState)
    (p : Pulse) (eid : String)
    (hdup : is_pulse_in_crits st p.id = false)
    (hev : env.add_event p = some eid) :
    (process_pulse env st p).2.countP (fun c => is_ind_call c)
      = p.indicators.countP (fun i => is_supported i) ∧
    p.indicators.countP (fun i => is_supported i)
      = p.indicators.length - p.indicators.countP (fun i => !(is_supported i)) ∧
    (process_pulse env st p).2.filterMap rel_target
      = p.indicators.filterMap (fun i => successful_id env i) := by
  refine ⟨process_pulse_ind_count env st p eid hdup hev, ?_,
    process_pulse_rel_map env st p eid hdup hev⟩
  have := countP_supported_add_not p.indicators
  omega

theorem indicator_calls_and_relationship_map_witness :
    (process_pulse
        ⟨fun _ => some "e1", fun _ _ => true,
         fun v _ => if v = "1.2.3.4" then some ⟨0, "i1", "ok"⟩ else some ⟨1, "i2", "bad"⟩⟩
        ⟨[]⟩
        ⟨"p1", "T", "d", "c", [], [],
         [⟨"IPv4", "1.2.3.4"⟩, ⟨"Yara", "rule1"⟩, ⟨"IPv6", "::1"⟩]⟩).2.countP
        (fun c => is_ind_call c) = 2 ∧
    (process_pulse
        ⟨fun _ => some "e1", fun _ _ => true,
         fun v _ => if v = "1.2.3.4" then some ⟨0, "i1", "ok"⟩ else some ⟨1, "i2", "bad"⟩⟩
        ⟨[]⟩
        ⟨"p1", "T", "d", "c", [], [],
         [⟨"IPv4", "1.2.3.4"⟩, ⟨"Yara", "rule1"⟩, ⟨"IPv6", "::1"⟩]⟩).2.filterMap
        rel_target = ["i1"] := by
  constructor
  · rw [(indicator_calls_and_relationship_map
      ⟨fun _ => some "e1", fun _ _ => true,
       fun v _ => if v = "1.2.3.4" then some ⟨0, "i1", "ok"⟩ else some ⟨1, "i2", "bad"⟩⟩
      ⟨[]⟩
      ⟨"p1", "T", "d", "c", [], [],
       [⟨"IPv4", "1.2.3.4"⟩, ⟨"Yara", "rule1"⟩, ⟨"IPv6", "::1"⟩]⟩ "e1"
      (by decide) rfl).1]
    decide
  · rw [(indicator_calls_and_relationship_map
      ⟨fun _ => some "e1", fun _ _ => true,
       fun v _ => if v = "1.2.3.4" then some ⟨0, "i1", "ok"⟩ else some ⟨1, "i2", "bad"⟩⟩
      ⟨[]⟩
      ⟨"p1", "T", "d", "c", [], [],
       [⟨"IPv4", "1.2.3.4"⟩, ⟨"Yara", "rule1"⟩, ⟨"IPv6", "::1"⟩]⟩ "e1"
      (by decide) rfl).2.2]
    decide

/-- C5: for a non-duplicate pulse whose event creation succeeded, the trace is
exactly duplicate check, event creation, ticket attachment, then the indicator
calls and finally the relationship calls — so the ticket call comes after the
event call and before every indicator call; and the right-hand side does not
depend on the ticket outcome, so a failed ticket attachment leaves the
indicator processing intact (stated explicitly in the second conjunct). -/
theorem ticket_between_event_and_indicators (env : CritsEnv) (st : RepoState)
    (p : Pulse) (eid : String)
    (hdup : is_pulse_in_crits st p.id = false)
    (hev : env.add_event p = some eid) :
    (process_pulse env st p).2
      = Call.dup_check p.id false
        :: Call.add_event p.name (pulse_description p) (pulse_reference p)
        :: Call.add_ticket eid p.id
        :: ((indicator_loop env p.indicators).1
            ++ (indicator_loop env p.indicators).2.map
                 (fun iid => Call.forge_rel eid iid)) ∧
    (env.ticket_ok eid p.id = false →
      (process_pulse env st p).2.countP (fun c => is_ind_call c)
        = p.indicators.countP (fun i => is_supported i)) :=
  ⟨process_pulse_success_trace env st p eid hdup hev,
   fun _ => process_pulse_ind_count env st p eid hdup hev⟩

theorem ticket_between_event_and_indicators_witness :
    (process_pulse
        ⟨fun _ => some "e1", fun _ _ => false, fun _ _ => some ⟨0, "i1", "ok"⟩⟩
        ⟨[]⟩ ⟨"p1", "T", "d", "c", [], [], [⟨"IPv4", "1.2.3.4"⟩]⟩).2.countP
        (fun c => is_ind_call c) = 1 := by
  rw [(ticket_between_event_and_indicators
    ⟨fun _ => some "e1", fun _ _ => false, fun _ _ => some ⟨0, "i1", "ok"⟩⟩
    ⟨[]⟩ ⟨"p1", "T", "d", "c", [], [], [⟨"IPv4", "1.2.3.4"⟩]⟩ "e1"
    (by decide) rfl).2 rfl]
  decide

lemma mappingLookup_isSome_iff (m : List (String × Option CritsType)) (k : String) :
    (mappingLookup m k).isSome = true ↔ k ∈ m.map Prod.fst := by
  induction m with
  | nil => simp [mappingLookup]
  | cons kv rest ih =>
    by_cases h : kv.1 = k
    · simp [mappingLookup, h]
    · simp [mappingLookup, h, ih, Ne.symm h]

/-- C6: every feed type string present in the mapping table is mapped (the
lookup is `some` exactly on table keys, and a `some` value is either a
concrete CRITs type or the explicit `None` marker by construction); a string
absent from the table makes the indicator loop skip the record with no
repository call; and the synonymous feed strings URI/URL, hostname/domain,
email/Email, and the case variants of filepath and mutex map to the same
CRITs type. -/
theorem indicator_mapping_total_and_synonyms (env : CritsEnv) :
    (∀ k : String, (mappingLookup get_indicator_mapping k).isSome = true
        ↔ k ∈ get_indicator_mapping.map Prod.fst) ∧
    (∀ (i : IndicatorRecord) (rest : List IndicatorRecord),
        mappingLookup get_indicator_mapping i.type = none →
        indicator_loop env (i :: rest) = indicator_loop env rest) ∧
    (mappingLookup get_indicator_mapping "URI" = some (some CritsType.URI)
      ∧ mappingLookup get_indicator_mapping "URL" = some (some CritsType.URI)
      ∧ mappingLookup get_indicator_mapping "hostname" = some (some CritsType.DOMAIN)
      ∧ mappingLookup get_indicator_mapping "domain" = some (some CritsType.DOMAIN)
      ∧ mappingLookup get_indicator_mapping "email" = some (some CritsType.EMAIL_ADDRESS)
      ∧ mappingLookup get_indicator_mapping "Email" = some (some CritsType.EMAIL_ADDRESS)
      ∧ mappingLookup get_indicator_mapping "filepath" = some (some CritsType.FILE_PATH)
      ∧ mappingLookup get_indicator_mapping "Filepath" = some (some CritsType.FILE_PATH)
      ∧ mappingLookup get_indicator_mapping "FilePath" = some (some CritsType.FILE_PATH)
      ∧ mappingLookup get_indicator_mapping "mutex" = some (some CritsType.MUTEX)
      ∧ mappingLookup get_indicator_mapping "Mutex" = some (some CritsType.MUTEX)) := by
  refine ⟨fun k => mappingLookup_isSome_iff get_indicator_mapping k, ?_, by decide⟩
  intro i rest h
  simp only [indicator_loop, h]

theorem indicator_mapping_total_and_synonyms_witness :
    indicator_loop ⟨fun _ => some "e1", fun _ _ => true, fun _ _ => none⟩
        [⟨"TLSH", "abc"⟩]
      = indicator_loop ⟨fun _ => some "e1", fun _ _ => true, fun _ _ => none⟩ [] :=
  (indicator_mapping_total_and_synonyms
    ⟨fun _ => some "e1", fun _ _ => true, fun _ _ => none⟩).2.1
    ⟨"TLSH", "abc"⟩ [] (by decide)

/-- C7: an indicator-creation call counts as success exactly when the reply is
a truthy structured result whose `return_code` is 0; a truthy reply with a
non-zero `return_code` is a failure even though it carries an identifier, and
in the indicator loop such a record issues its call but contributes nothing to
the relationship map. -/
theorem add_crits_indicator_success_iff (reply : Option IndicatorResult) :
    ((add_crits_indicator reply).isSome = true
        ↔ ∃ r, reply = some r ∧ r.return_code = 0) ∧
    (∀ r : IndicatorResult, reply = some r → ¬ r.return_code = 0 →
        add_crits_indicator reply = none) ∧
    (∀ (env : CritsEnv) (i : IndicatorRecord) (t : CritsType) (r : IndicatorResult),
        mappingLookup get_indicator_mapping i.type = some (some t) →
        env.add_indicator i.indicator t = some r →
        ¬ r.return_code = 0 →
        (indicator_loop env [i]).1 = [Call.add_ind i.indicator t] ∧
        (indicator_loop env [i]).2 = []) := by
  refine ⟨?_, ?_, ?_⟩
  · cases reply with
    | none => simp [add_crits_indicator]
    | some r =>
      by_cases h : r.return_code = 0
      · simp only [add_crits_indicator, h, if_true, Option.isSome_some, true_iff]
        exact ⟨r, rfl, h⟩
      · simp only [add_crits_indicator, h, if_false, Option.isSome_none]
        constructor
        · intro hfalse
          exact absurd hfalse (by simp)
        · rintro ⟨s, hs, hc⟩
          cases Option.some.inj hs
          exact absurd hc h
  · intro r hr hc
    subst hr
    simp [add_crits_indicator, hc]
  · intro env i t r hm hr hc
    have hadd : add_crits_indicator (env.add_indicator i.indicator t) = none := by
      rw [hr]
      simp [add_crits_indicator, hc]
    constructor
    · unfold indicator_loop
      rw [hm]
      simp [hadd, indicator_loop]
    · unfold indicator_loop
      rw [hm]
      simp [hadd, indicator_loop]

theorem add_crits_indicator_success_iff_witness :
    add_crits_indicator (some ⟨7, "abc123", "error"⟩) = none :=
  (add_crits_indicator_success_iff (some ⟨7, "abc123", "error"⟩)).2.1
    ⟨7, "abc123", "error"⟩ rfl (by decide)

/-- C8 counterexample: the claim says the generator terminates exactly when a
page's `next` field is absent or null or an HTTP call is non-200.  With a page
whose `next` field is present and non-null but equal to the empty string —
falsy in Python, so line 270's `if all_pulses['next']:` fails — the generator
stops even though a further page with more pulses would have been served: only
the first page's pulse is yielded and no follow-up URL is fetched. -/
theorem pulse_gen_empty_next_stops :
    otxFetchES (first_url "https://otx" none)
      = some { results := some [mkPulse 0], next := some (some "") } ∧
    (some (some "") : Option (Option String)) ≠ none ∧
    (some (some "") : Option (Option String)) ≠ some none ∧
    otxFetchES "" = some { results := some [mkPulse 1], next := some none } ∧
    get_pulse_generator otxFetchES "https://otx" none 10
      = ([mkPulse 0], [first_url "https://otx" none]) := by
  refine ⟨by decide, by decide, by decide, by decide, by decide⟩

/-- C8 (amended): the generator yields every element of each fetched page's
results array in page order and reaches each later page only via the
server-supplied `next` URL; it terminates exactly when a page's `next` field
is absent, null, or the empty string, or an HTTP call returns non-200 (with no
retry: a failed fetch ends the run at once); and three pages of 10/10/4 pulses
with `next` populated on the first two and null on the third yield exactly the
24 pulses in page order, fetching exactly the first URL and the two `next`
links. -/
theorem pulse_gen_characterization :
    (∀ nx : Option (Option String),
        next_truthy nx = none
          ↔ (nx = none ∨ nx = some none ∨ nx = some (some ""))) ∧
    (∀ (fetch : String → Option OtxPage) (fuel : Nat),
        pulse_loop fetch fuel none = ([], [])) ∧
    (∀ (fetch : String → Option OtxPage) (fuel : Nat) (page : OtxPage),
        next_truthy page.next = none →
        pulse_loop fetch (fuel + 1) (some page) = (page.results.getD [], [])) ∧
    (∀ (fetch : String → Option OtxPage) (fuel : Nat) (page : OtxPage) (nxt : String),
        next_truthy page.next = some nxt →
        pulse_loop fetch (fuel + 1) (some page)
          = ((page.results.getD []) ++ (pulse_loop fetch fuel (fetch nxt)).1,
             nxt :: (pulse_loop fetch fuel (fetch nxt)).2)) ∧
    get_pulse_generator otxFetch3 "https://otx" none 10
      = ((List.range 24).map mkPulse,
         [first_url "https://otx" none, "https://otx/p2", "https://otx/p3"]) := by
  refine ⟨?_, ?_, ?_, ?_, ?_⟩
  · intro nx
    match nx with
    | none => simp [next_truthy]
    | some none => simp [next_truthy]
    | some (some s) =>
      by_cases h : s = ""
      · subst h
        simp [next_truthy]
      · simp [next_truthy, h]
  · intro fetch fuel
    cases fuel <;> rfl
  · intro fetch fuel page h
    simp only [pulse_loop, h]
  · intro fetch fuel page nxt h
    simp only [pulse_loop, h]
  · decide

theorem pulse_gen_characterization_witness :
    pulse_loop otxFetch3 (3 + 1)
        (some { results := some ((List.range 4).map (fun n => mkPulse (n + 20))),
                next := some none })
      = (((some ((List.range 4).map (fun n => mkPulse (n + 20)))) :
            Option (List Pulse)).getD [], []) :=
  pulse_gen_characterization.2.2.1 otxFetch3 3
    { results := some ((List.range 4).map (fun n => mkPulse (n + 20))),
      next := some none }
    (by decide)

/-- C9: the duplicate check answers true exactly when the repository count of
Events with a ticket numbered by the pulse id is positive; and a pulse for
which it answers true produces only the duplicate-check call (no repository
write), leaves the state unchanged, and the remaining pulses are processed
exactly as without it. -/
theorem is_pulse_in_crits_iff_and_skip (env : CritsEnv) (st : RepoState)
    (p : Pulse) (rest : List Pulse) :
    (∀ pulse_id : String,
        is_pulse_in_crits st pulse_id = true
          ↔ 0 < event_count_by_ticket st pulse_id) ∧
    (is_pulse_in_crits st p.id = true →
      process_pulse env st p = (st, [Call.dup_check p.id true]) ∧
      execute_pulses env st (p :: rest)
        = ((execute_pulses env st rest).1,
           [Call.dup_check p.id true] :: (execute_pulses env st rest).2)) := by
  refine ⟨?_, ?_⟩
  · intro pid
    unfold is_pulse_in_crits
    by_cases h : 0 < event_count_by_ticket st pid
    · simp [h]
    · simp [h]
  · intro h
    have hskip := process_pulse_skip env st p h
    refine ⟨hskip, ?_⟩
    simp only [execute_pulses, hskip]

theorem is_pulse_in_crits_iff_and_skip_witness :
    process_pulse ⟨fun _ => some "e1", fun _ _ => true, fun _ _ => none⟩ ⟨["p1"]⟩
        ⟨"p1", "T", "d", "c", [], [], []⟩
      = (⟨["p1"]⟩, [Call.dup_check "p1" true]) :=
  ((is_pulse_in_crits_iff_and_skip
      ⟨fun _ => some "e1", fun _ _ => true, fun _ _ => none⟩
      ⟨["p1"]⟩ ⟨"p1", "T", "d", "c", [], [], []⟩ []).2 (by decide)).1

/-- C10: both PATCH-issuing helpers hard-code `verify=False` in the request
they send, whatever value their `verify` parameter (and hence the operator's
configured toggle, which the caller passes in) carries. -/
theorem patch_requests_disable_verification (crits_url : String)
    (event_id : String) (pulse_id : String) (indicator_id : String)
    (verify : Bool) :
    (add_ticket_to_crits_event crits_url event_id pulse_id verify).verify = false ∧
    (build_crits_relationship crits_url event_id indicator_id verify).verify = false :=
  ⟨rfl, rfl⟩
